import Mathlib

/-!
Verification of the session and resilience layer of the concierge agent
(`src/services/browser_service.py`).  The Python class `BrowserService` is
shallowly embedded: its mutable class attributes become explicit state
records, exceptions become data (`String` error texts carried in sum types),
`time.time()` becomes an explicit `now : Int` parameter, and the random
jitter becomes an explicit rational parameter.  Each definition cites the
source lines it translates.
-/

namespace BrowserService

/-! ## String helpers

Executable stand-ins for the Python string operations used by the source:
`in` (substring containment), `str.startswith`, `str.lower`, `str.strip`.
-/

/-- Boolean test that `pat` occurs at the start of `cs` (helper for substring
search). -/
def charsStartWith : List Char → List Char → Bool
  | [], _ => true
  | _ :: _, [] => false
  | p :: ps, c :: cs => p = c && charsStartWith ps cs

/-- Boolean substring search on character lists: does `pat` occur anywhere in
`hay`?  Models the Python `pat in hay` test. -/
def charsContain (pat : List Char) : List Char → Bool
  | [] => charsStartWith pat []
  | c :: cs => charsStartWith pat (c :: cs) || charsContain pat cs

/-- Substring containment on strings: `strContains hay pat` models the Python
expression `pat in hay`. -/
def strContains (hay pat : String) : Bool :=
  charsContain pat.toList hay.toList

/-- Python `str.lower`: lower-case every character (the texts handled here
are ASCII, where `Char.toLower` and Python agree).  Defined by mapping over
the character list so that it evaluates by kernel reduction. -/
def pyLower (s : String) : String :=
  ⟨s.data.map Char.toLower⟩

/-- Python `str.startswith`. -/
def pyStartsWith (s pre : String) : Bool :=
  charsStartWith pre.data s.data

/-- Helper for `pySplitLines`: split a character list at newlines. -/
def splitNlAux : List Char → List Char → List String
  | [], acc => [⟨acc.reverse⟩]
  | c :: cs, acc =>
    if c = '\n' then (⟨acc.reverse⟩ : String) :: splitNlAux cs []
    else splitNlAux cs (c :: acc)

/-- Python `str.split("\n")` (in particular `"".split("\n") = [""]`). -/
def pySplitLines (s : String) : List String :=
  splitNlAux s.data []

/-- Containment of any of a list of markers, modelling
`any(term in error_str for term in [...])`. -/
def containsAny (hay : String) (pats : List String) : Bool :=
  pats.any (fun p => strContains hay p)

/-! ## Result Extractor (`extract_final_result`, lines 1046-1111)

The automation agent's outcome is duck-typed in Python; following the shapes
the extractor probes for, it is embedded as a sum type:
* `str s` — `isinstance(agent_result, str)`;
* `withResults rs strRepr` — an object exposing `all_results` (and not the
  bare `result`/`message` attributes probed at lines 1084-1087); `strRepr`
  models `str(agent_result)`;
* `plain result message strRepr` — any other object, with optional
  `result` / `message` attributes (`none` = attribute absent).

Python truthiness of `extracted_content` (a string) is the test `≠ ""`;
truthiness of the optional `result` / `action` attributes is
`optTruthy`. -/

/-- Pythonic truthiness of an optional string attribute: present and
non-empty. -/
def optTruthy : Option String → Bool
  | none => false
  | some s => s ≠ ""

/-- One entry of `agent_result.all_results` with the attributes the extractor
probes (`is_done`, `extracted_content`, `result`, `action`). -/
structure StepResult where
  is_done : Bool
  extracted_content : String
  result : Option String
  action : Option String
deriving Repr, DecidableEq

/-- The duck-typed outcome of `agent.run`, split along the attribute probes of
`extract_final_result`. -/
inductive AgentOutcome where
  | str (s : String)
  | withResults (all_results : List StepResult) (strRepr : String)
  | plain (result : Option String) (message : Option String) (strRepr : String)
deriving Repr, DecidableEq

/-- Translation of `extract_final_result` (lines 1046-1089).  The `try`
wrapper of lines 1091-1111 never fires in the embedding because all
operations are total here; it is modelled separately by
`extractFinalResultOnException` below. -/
def extract_final_result : AgentOutcome → String
  | .str s => s
  | .withResults rs strRepr =>
    let completed := rs.filter (fun r => r.is_done && r.extracted_content ≠ "")
    match completed.getLast? with
    | some r => r.extracted_content
    | none =>
      let withContent := rs.filter (fun r => r.extracted_content ≠ "")
      match withContent.getLast? with
      | some r => r.extracted_content
      | none =>
        match rs.getLast? with
        | some last =>
          if optTruthy last.result then
            "Found information: " ++ last.result.getD ""
          else if optTruthy last.action then
            "Last action performed: " ++ last.action.getD ""
          else strRepr
        | none => strRepr
  | .plain r m strRepr =>
    match r with
    | some rv => rv
    | none =>
      match m with
      | some mv => mv
      | none => strRepr

/-! ## Circuit breakers and the dispatch loop of `execute_search`

Class attributes of `BrowserService` holding breaker state (lines 33-45)
become the record `CBState`.  Timestamps are integers (seconds); `None`
becomes `Option`. -/

/-- Breaker state: the class attributes of lines 33-45. -/
structure CBState where
  anthropic_failures : Nat
  anthropic_circuit_open : Bool
  anthropic_circuit_open_time : Option Int
  circuit_open : Bool
  circuit_open_time : Option Int
  circuit_failure_count : Nat
deriving Repr, DecidableEq

/-- Line 37: `_anthropic_circuit_reset_after = 300` (5 minutes). -/
def anthropic_circuit_reset_after : Int := 300

/-- Line 38: `_anthropic_failure_threshold = 3`. -/
def anthropic_failure_threshold : Nat := 3

/-- Line 44: `_circuit_reset_threshold = 3`. -/
def circuit_reset_threshold : Nat := 3

/-- Line 45: `_circuit_cooldown_period = 300` (5 minutes). -/
def circuit_cooldown_period : Int := 300

/-- Settings default `MAX_RETRIES = 3` (`src/config/settings.py` line 64). -/
def MAX_RETRIES : Nat := 3

/-- The fresh state in which every counter is zero and both breakers are
closed (the initial class-attribute values of lines 33-45). -/
def initialCBState : CBState :=
  { anthropic_failures := 0
    anthropic_circuit_open := false
    anthropic_circuit_open_time := none
    circuit_open := false
    circuit_open_time := none
    circuit_failure_count := 0 }

/-- Line 254: the fail-fast message of the general breaker. -/
def generalBlockedMessage : String :=
  "I'm sorry, but our service is currently experiencing high demand. Please try again in a few minutes."

/-- Line 267: the fail-fast message of the Anthropic breaker. -/
def anthropicBlockedMessage : String :=
  "I'm sorry, but our service is currently experiencing high demand with the AI provider. Please try again in a few minutes."

/-- Line 393: returned at the instant the Anthropic breaker opens. -/
def anthropicOpenedMessage : String :=
  "I'm sorry, but our AI service is currently experiencing high demand. Please try again in a few minutes."

/-- Line 426: returned at the instant the general breaker opens. -/
def generalOpenedMessage : String :=
  "I'm sorry, but our service is currently experiencing technical difficulties. Please try again in a few minutes."

/-- Line 379: user message on a Playwright browser-installation error. -/
def browserIssueMessage : String :=
  "I'm sorry, but I encountered an issue with the browser. Please try again in a moment."

/-- Line 402: user message on an overload-classified error below threshold. -/
def overloadRetryMessage : String :=
  "I'm sorry, but I encountered an issue with the search. The service might be experiencing high demand. Let me try again."

/-- Line 413: user message on a connection-classified error. -/
def connectionRetryMessage : String :=
  "I'm sorry, but I encountered a connection issue. Let me try again."

/-- Line 458: fallback when the retry budget is exhausted with no message set. -/
def maxRetriesMessage : String :=
  "I'm sorry, but I was unable to complete your request after multiple attempts. Please try again later."

/-- Lines 353: classification of Playwright-installation errors (applied to the
lowercased exception text). -/
def isPlaywrightError (e : String) : Bool :=
  containsAny e ["executable doesn't exist", "please run the following command"]

/-- Line 385: classification of overload errors (applied to the lowercased
exception text). -/
def isOverloadError (e : String) : Bool :=
  containsAny e ["overloaded", "502", "too many requests", "rate limit"]

/-- Line 405: classification of connection errors (applied to the lowercased
exception text). -/
def isConnectionError (e : String) : Bool :=
  containsAny e ["timeout", "connection", "network", "socket"]

/-- Lines 261-272: the Anthropic breaker check at the top of `execute_search`.
The code reads `now - _anthropic_circuit_open_time` directly; the two fields
are always stamped together, so the `getD 0` default is never exercised on
reachable states. -/
def checkAnthropicCircuit (s : CBState) (now : Int) : Option String × CBState :=
  if s.anthropic_circuit_open then
    if now - s.anthropic_circuit_open_time.getD 0 < anthropic_circuit_reset_after then
      (some anthropicBlockedMessage, s)
    else
      (none, { s with anthropic_circuit_open := false, anthropic_failures := 0 })
  else (none, s)

/-- Lines 248-272: both breaker checks at the top of `execute_search`, general
breaker first.  Returns the fail-fast message when a breaker is open and
cooling, else the state after any cooldown reset. -/
def checkCircuitBreakers (s : CBState) (now : Int) : Option String × CBState :=
  if s.circuit_open then
    if now - s.circuit_open_time.getD 0 < circuit_cooldown_period then
      (some generalBlockedMessage, s)
    else
      checkAnthropicCircuit
        { s with circuit_open := false, circuit_failure_count := 0 } now
  else checkAnthropicCircuit s now

/-- Lines 337-341: on a successful `agent.run`, both failure counters reset
to 0. -/
def recordSuccess (s : CBState) : CBState :=
  { s with anthropic_failures := 0, circuit_failure_count := 0 }

/-- What one pass through the `except` block of lines 349-426 decides: either
`return` a message immediately (breaker just opened), or fall through to the
retry machinery with a user-facing `result` string set. -/
inductive ErrorStep where
  | immediate (message : String)
  | retry (result : String)
deriving Repr, DecidableEq

/-- Lines 421-426: after classification, open the general breaker if its count
reached the threshold and `return`; else fall through with `result`. -/
def generalThresholdCheck (s : CBState) (now : Int) (res : String) : CBState × ErrorStep :=
  if circuit_reset_threshold ≤ s.circuit_failure_count then
    ({ s with circuit_open := true, circuit_open_time := some now }, .immediate generalOpenedMessage)
  else (s, .retry res)

/-- Translation of the inner `except Exception` block of lines 349-426:
classify the exception text, update the counters, possibly open a breaker.
The Playwright branch's subprocess install (lines 357-382) is modelled as
not itself raising, so that branch always sets the line-379 message. -/
def handleAgentError (s : CBState) (now : Int) (errText : String) : CBState × ErrorStep :=
  let e := pyLower errText
  if isPlaywrightError e then
    generalThresholdCheck s now browserIssueMessage
  else if isOverloadError e then
    let s1 := { s with anthropic_failures := s.anthropic_failures + 1 }
    if anthropic_failure_threshold ≤ s1.anthropic_failures then
      ({ s1 with anthropic_circuit_open := true, anthropic_circuit_open_time := some now },
        .immediate anthropicOpenedMessage)
    else
      generalThresholdCheck
        { s1 with circuit_failure_count := s1.circuit_failure_count + 1 } now
        overloadRetryMessage
  else if isConnectionError e then
    generalThresholdCheck
      { s with circuit_failure_count := s.circuit_failure_count + 1 } now
      connectionRetryMessage
  else
    generalThresholdCheck s now ("I encountered an error: " ++ errText)

/-- One dispatch attempt of the retry loop, as seen from the circuit logic:
`agent.run` succeeds with an outcome, or raises (inner `except`, line 349), or
some other statement of the `try` block raises (outer `except`, line 428). -/
inductive AttemptOutcome where
  | success (r : AgentOutcome)
  | agentError (errText : String)
  | outerError (errText : String)
deriving Repr, DecidableEq

/-- The retry loop of lines 290-469 (its effect on breaker state and on the
returned string).  `env k` is the outcome of attempt `k`; `retries` and
`result` are the loop variables of lines 275 and 284; `fuel` is
`maxRetries + 1 - retries`, enough for the loop to always exit through its
own tests. -/
def searchLoop (env : Nat → AttemptOutcome) (now : Int) (maxRetries : Nat) :
    CBState → String → Nat → Nat → CBState × String
  | s, result, _, 0 => (s, result)
  | s, _result, retries, fuel + 1 =>
    match env retries with
    | .success r => (recordSuccess s, extract_final_result r)
    | .agentError e =>
      match handleAgentError s now e with
      | (s', .immediate m) => (s', m)
      | (s', .retry res) =>
        if maxRetries < retries + 1 then
          (s', if res = "" then maxRetriesMessage else res)
        else searchLoop env now maxRetries s' res (retries + 1) fuel
    | .outerError e =>
      let res := "I encountered an error: " ++ e
      if maxRetries < retries + 1 then
        (s, if res = "" then maxRetriesMessage else res)
      else searchLoop env now maxRetries s res (retries + 1) fuel

/-- The breaker-and-retry skeleton of `execute_search` (lines 233-474): check
both breakers, then run the retry loop.  Session bookkeeping (timestamps,
browser handles) is modelled separately below. -/
def execute_search (env : Nat → AttemptOutcome) (s : CBState) (now : Int)
    (maxRetries : Nat) : CBState × String :=
  match checkCircuitBreakers s now with
  | (some msg, s') => (s', msg)
  | (none, s') => searchLoop env now maxRetries s' "" 0 (maxRetries + 1)

/-! ## Retry backoff (lines 461-469)

The delay slept before retry `retries` is `max(1, 2 ** retries + jitter)`
with `jitter = 2 ** retries * 0.25 * (random.random() * 2 - 1)`.  The random
draw `random.random() ∈ [0, 1)` becomes an explicit rational parameter
`r`. -/

/-- Lines 463-467: the computed backoff delay before retry number `retries`,
with `r` the value of `random.random()`. -/
def retryDelay (retries : Nat) (r : ℚ) : ℚ :=
  let delay : ℚ := 2 ^ retries
  let jitter : ℚ := delay * (1 / 4) * (2 * r - 1)
  max 1 (delay + jitter)

/-- Expected backoff delay at retry number `retries`: the mean of the
endpoint values of the jitter draw (the delay is affine in `r` wherever the
`max 1` clamp is inactive, so this is the expectation of the uniform
draw there). -/
def expectedRetryDelay (retries : Nat) : ℚ :=
  (retryDelay retries 0 + retryDelay retries 1) / 2

/-! ## Session bookkeeping (`_browsers`, `_last_activity_times`,
`_current_contexts`)

The three per-user dictionaries of lines 26-31 become association lists with
Python-dict semantics (unique keys, in-place update, append on new key).
Browser handles are numbered by a freshness counter `next_handle`, modelling
`Browser(self._browser_config)` returning a new object; an entry `some none`
is a key explicitly set to `None` (the code nulls rather than deletes in
several places). -/

/-- Dictionary lookup: `d[k]` / `k in d`. -/
def alistGet {α : Type} : List (Nat × α) → Nat → Option α
  | [], _ => none
  | (k', v') :: rest, k => if k' = k then some v' else alistGet rest k

/-- Dictionary assignment `d[k] = v` (update in place, append when new). -/
def alistSet {α : Type} : List (Nat × α) → Nat → α → List (Nat × α)
  | [], k, v => [(k, v)]
  | (k', v') :: rest, k, v =>
    if k' = k then (k, v) :: rest else (k', v') :: alistSet rest k v

/-- Dictionary deletion `del d[k]`. -/
def alistRemove {α : Type} : List (Nat × α) → Nat → List (Nat × α)
  | [], _ => []
  | (k', v') :: rest, k =>
    if k' = k then alistRemove rest k else (k', v') :: alistRemove rest k

/-- The session-bookkeeping class attributes of lines 26-31 (plus the
freshness counter for newly constructed browser objects).
`inactivity_timeout` is `_inactivity_timeout` (line 29), read by the sweep
and never written elsewhere. -/
structure SessionState where
  browsers : List (Nat × Option Nat)
  last_activity_times : List (Nat × Int)
  current_contexts : List (Nat × Nat)
  inactivity_timeout : Int
  inactivity_check_running : Bool
  next_handle : Nat
deriving Repr, DecidableEq

/-- Whether the user currently holds a live browser handle: the test
`user_id in self._browsers and self._browsers[user_id] is not None` used at
lines 137, 293, 487. -/
def hasLiveBrowser (s : SessionState) (user_id : Nat) : Bool :=
  match alistGet s.browsers user_id with
  | some (some _) => true
  | _ => false

/-- Translation of `initialize_browser` (lines 133-168): close any
pre-existing live handle for the user (a close failure is swallowed, line
141-144, so closing is simply nulling the slot here), construct a fresh
browser, start the inactivity sweep flag, stamp activity.  Returns the new
handle. -/
def initialize_browser (s : SessionState) (user_id : Nat) (now : Int) :
    SessionState × Nat :=
  let s1 :=
    if hasLiveBrowser s user_id then
      { s with browsers := alistSet s.browsers user_id none }
    else s
  let handle := s1.next_handle
  let s2 :=
    { s1 with
      browsers := alistSet s1.browsers user_id (some handle)
      next_handle := s1.next_handle + 1
      inactivity_check_running := true
      last_activity_times := alistSet s1.last_activity_times user_id now }
  (s2, handle)

/-- Lines 292-294 of `execute_search`: the browser-acquisition step of each
dispatch.  A browser is (re)initialized only when the user has no live
handle; otherwise the existing handle is used for the task. -/
def acquireBrowser (s : SessionState) (user_id : Nat) (now : Int) :
    SessionState × Nat :=
  match alistGet s.browsers user_id with
  | some (some h) => (s, h)
  | _ => initialize_browser s user_id now

/-- Translation of `cleanup` for a single user (lines 476-500, the
`user_id is not None` arm): when the user holds a live handle, close it
(failures swallowed), null the slot and delete the activity/context entries;
otherwise only a debug line is logged and nothing changes.  The whole body
sits in `try/except`, so the call never raises. -/
def cleanup (s : SessionState) (user_id : Nat) : SessionState :=
  if hasLiveBrowser s user_id then
    { s with
      browsers := alistSet s.browsers user_id none
      last_activity_times := alistRemove s.last_activity_times user_id
      current_contexts := alistRemove s.current_contexts user_id }
  else s

/-- Translation of `extend_timeout` (lines 564-585): both branches assign
`_last_activity_times[user_id] = time.time()` (updating or creating the
entry) and the function returns `True`; `additional_seconds` is never
read. -/
def extend_timeout (s : SessionState) (user_id : Nat) (additional_seconds : Int)
    (now : Int) : SessionState × Bool :=
  ({ s with last_activity_times := alistSet s.last_activity_times user_id now }, true)

/-! ## Context Resolver (`generate_task_prompt`, lines 696-1044)

The regular expressions of the source are compiled by hand into scanners
over character lists.  Each pattern used is deterministic under greedy
matching (every quantified class is followed by a character it cannot
match), so the scanners below implement exactly Python `re.search` /
`re.findall` semantics for these patterns: try each start position from the
left, greedy quantifiers, continue after a match's end for `findall`. -/

/-- Python `\s` (the whitespace characters `str.split` and `re` agree on). -/
def pyIsSpace (c : Char) : Bool :=
  c = ' ' || c = '\t' || c = '\n' || c = '\x0d' || c = '\x0b' || c = '\x0c'

/-- Python `str.strip()`: drop leading and trailing whitespace. -/
def pyStrip (s : String) : String :=
  ⟨((s.data.dropWhile pyIsSpace).reverse.dropWhile pyIsSpace).reverse⟩

/-- Python `int(...)` on a known digit string. -/
def digitsToNat (l : List Char) : Nat :=
  l.foldl (fun a c => a * 10 + (c.toNat - '0'.toNat)) 0

/-- Greedy `\d*`: split a leading run of digits. -/
def takeDigits : List Char → List Char × List Char
  | [] => ([], [])
  | c :: cs =>
    if c.isDigit then
      let p := takeDigits cs
      (c :: p.1, p.2)
    else ([], c :: cs)

/-- Greedy `\s*`: split a leading run of whitespace. -/
def takeWS : List Char → List Char × List Char
  | [] => ([], [])
  | c :: cs =>
    if pyIsSpace c then
      let p := takeWS cs
      (c :: p.1, p.2)
    else ([], c :: cs)

/-- Greedy `[^*]*`: split a leading run of non-asterisk characters. -/
def takeNonStar : List Char → List Char × List Char
  | [] => ([], [])
  | c :: cs =>
    if c ≠ '*' then
      let p := takeNonStar cs
      (c :: p.1, p.2)
    else ([], c :: cs)

/-- Try a positional matcher at every start position from the left:
`re.search` semantics for patterns that cannot match the empty string. -/
def searchAt {α : Type} (m : List Char → Option α) : List Char → Option α
  | [] => none
  | c :: cs =>
    match m (c :: cs) with
    | some v => some v
    | none => searchAt m cs

/-- Positional matcher for `(\d+)\s*LIT` (party pattern `(\d+)\s*people`). -/
def matchDigitsWsLit (lit : List Char) (cs : List Char) : Option String :=
  let (ds, r1) := takeDigits cs
  if ds.isEmpty then none
  else
    let (_, r2) := takeWS r1
    if charsStartWith lit r2 then some (String.mk ds) else none

/-- Positional matcher for `LIT\s*(\d+)` (party pattern `for\s*(\d+)` and the
time pattern `at\s*(\d+)`). -/
def matchLitWsDigits (lit : List Char) (cs : List Char) : Option String :=
  if charsStartWith lit cs then
    let (_, r1) := takeWS (cs.drop lit.length)
    let (ds, _) := takeDigits r1
    if ds.isEmpty then none else some (String.mk ds)
  else none

/-- Positional matcher for `LIT1\s*LIT2\s*(\d+)` (party patterns
`party\s*of\s*(\d+)` and `group\s*of\s*(\d+)`). -/
def matchLitWsLitWsDigits (lit1 lit2 : List Char) (cs : List Char) : Option String :=
  if charsStartWith lit1 cs then
    let (_, r1) := takeWS (cs.drop lit1.length)
    if charsStartWith lit2 r1 then
      let (_, r2) := takeWS (r1.drop lit2.length)
      let (ds, _) := takeDigits r2
      if ds.isEmpty then none else some (String.mk ds)
    else none
  else none

/-- Lines 751-763: the party-size pattern list, first matching pattern wins
(the loop breaks); each `re.search` runs on the lowercased text. -/
def extractPartySize (txt : String) : Option String :=
  let q := (pyLower txt).toList
  match searchAt (matchDigitsWsLit "people".toList) q with
  | some v => some v
  | none =>
    match searchAt (matchLitWsDigits "for".toList) q with
    | some v => some v
    | none =>
      match searchAt (matchLitWsLitWsDigits "party".toList "of".toList) q with
      | some v => some v
      | none => searchAt (matchLitWsLitWsDigits "group".toList "of".toList) q

/-- Positional matcher for `(\d+)(?::(\d+))?\s*(am|pm)` — the captured hour
digits, optional minute digits, and meridian. -/
def matchHourAmPm (cs : List Char) : Option (String × Option String × String) :=
  let (ds, r1) := takeDigits cs
  if ds.isEmpty then none
  else
    let p :=
      match r1 with
      | ':' :: r =>
        let (ms, r') := takeDigits r
        if ms.isEmpty then ((none : Option String), r1) else (some (String.mk ms), r')
      | _ => ((none : Option String), r1)
    let (_, r3) := takeWS p.2
    match r3 with
    | a :: b :: _ =>
      if (a = 'a' || a = 'p') && b = 'm' then
        some (String.mk ds, p.1, String.mk [a, b])
      else none
    | _ => none

/-- Positional matcher for `at\s*(\d+)(?::(\d+))?\s*(am|pm)`. -/
def matchAtHourAmPm (cs : List Char) : Option (String × Option String × String) :=
  if charsStartWith "at".toList cs then
    let (_, r1) := takeWS (cs.drop 2)
    match r1 with
    | c :: _ => if c.isDigit then matchHourAmPm r1 else none
    | [] => none
  else none

/-- Lines 776-784: convert an am/pm match to `f"{hour}:{minutes}"`:
`hour = int(group 1)` plus 12 when `pm` and below 12, minutes default
`"00"`. -/
def ampmToTime (m : String × Option String × String) : String :=
  let hour := digitsToNat m.1.data
  let minutes := m.2.1.getD "00"
  let hour := if m.2.2 = "pm" && hour < 12 then hour + 12 else hour
  toString hour ++ ":" ++ minutes

/-- Lines 766-784: the time-pattern loop over the current query.  This loop
has no `break`, so the LAST matching pattern wins: `at\s*(\d+)` (formatted
`group1:00`) overrides the am/pm patterns when it matches. -/
def extractTimeNoBreak (txt : String) : Option String :=
  let q := (pyLower txt).toList
  let r1 := (searchAt matchHourAmPm q).map ampmToTime
  let r2 := (searchAt matchAtHourAmPm q).map ampmToTime
  let r3 := (searchAt (matchLitWsDigits "at".toList) q).map (fun g1 => g1 ++ ":00")
  let t := r1
  let t := match r2 with | some v => some v | none => t
  match r3 with | some v => some v | none => t

/-- Lines 799-812: the same time-pattern loop as run during the
same-time/same-party history rescan; there the loop DOES break, so the FIRST
matching pattern wins. -/
def extractTimeFirstMatch (txt : String) : Option String :=
  let q := (pyLower txt).toList
  match (searchAt matchHourAmPm q).map ampmToTime with
  | some v => some v
  | none =>
    match (searchAt matchAtHourAmPm q).map ampmToTime with
    | some v => some v
    | none => (searchAt (matchLitWsDigits "at".toList) q).map (fun g1 => g1 ++ ":00")

/-- Lines 796-824: walk the collected previous user lines most-recent-first,
filling whichever of time and party size is still missing, stopping once both
are found. -/
def sameRescan : List String → Option String → Option String → Option String × Option String
  | [], t, p => (t, p)
  | prev :: rest, t, p =>
    let t' := match t with | some v => some v | none => extractTimeFirstMatch prev
    let p' := match p with | some v => some v | none => extractPartySize prev
    if t'.isSome && p'.isSome then (t', p') else sameRescan rest t' p'

/-- Lines 747-824: extraction of time and party size from the current query,
followed by the "same time"/"same party"/"same" history rescan over the
lines of `history_context` that start with `User:` or `U:`. -/
def extractTimeAndParty (query history_context : String) : Option String × Option String :=
  let party := extractPartySize query
  let time := extractTimeNoBreak query
  let q := pyLower query
  if strContains q "same time" || strContains q "same party" || strContains q "same" then
    let prevs := (pySplitLines history_context).filter
      (fun l => pyStartsWith l "User:" || pyStartsWith l "U:")
    sameRescan prevs.reverse time party
  else (time, party)

/-- Lines 708-745: relative-date extraction.  The call-time environment is
explicit: `weekday` is `datetime.now().weekday()` and `dayOffsetStr d` is
`(datetime.now() + timedelta(days=d)).strftime("%Y-%m-%d")`. -/
def extractDates (query : String) (dayOffsetStr : Nat → String) (weekday : Int) :
    Option String :=
  let q := pyLower query
  if strContains q "next weekend" then
    let d := ((5 - weekday) % 7 + 7).toNat
    some (dayOffsetStr d ++ " to " ++ dayOffsetStr (d + 1))
  else if strContains q "this weekend" then
    let d := ((5 - weekday) % 7).toNat
    some (dayOffsetStr d ++ " to " ++ dayOffsetStr (d + 1))
  else if strContains q "saturday" then
    some (dayOffsetStr ((5 - weekday) % 7).toNat)
  else if strContains q "sunday" then
    some (dayOffsetStr ((6 - weekday) % 7).toNat)
  else if strContains q "this friday" then
    some (dayOffsetStr ((4 - weekday) % 7).toNat)
  else if strContains q "tomorrow" then
    some (dayOffsetStr 1)
  else none

/-- Lines 827-828: the reference-language vocabulary. -/
def referenceIndicators : List String :=
  ["first", "second", "third", "1st", "2nd", "3rd", "that one", "last one"]

/-- Line 828: `is_reference_request` — any indicator occurs in the lowercased
query. -/
def isReferenceRequest (query : String) : Bool :=
  referenceIndicators.any (fun ind => strContains (pyLower query) ind)

/-- Lines 836-857: group the lines of `history_context` into the messages
attributed to the assistant (a message starts at an `Assistant:`/`A:` line
and extends over following lines until a `User:`/`U:` line). -/
def assistantMessagesAux : List String → List String → String → Bool → List String
  | [], msgs, current, is_asst =>
    if current ≠ "" && is_asst then msgs ++ [current] else msgs
  | line :: rest, msgs, current, is_asst =>
    if pyStartsWith line "Assistant:" || pyStartsWith line "A:" then
      assistantMessagesAux rest (if current ≠ "" then msgs ++ [current] else msgs) line true
    else if pyStartsWith line "User:" || pyStartsWith line "U:" then
      assistantMessagesAux rest (if current ≠ "" then msgs ++ [current] else msgs) "" false
    else if is_asst then
      assistantMessagesAux rest msgs (current ++ "\n" ++ line) true
    else
      assistantMessagesAux rest msgs current false

/-- Lines 835-857 with the line-834 guard: assistant messages of a (possibly
empty) history context. -/
def assistantMessages (history_context : String) : List String :=
  if history_context ≠ "" then
    assistantMessagesAux (pySplitLines history_context) [] "" false
  else []

/-- Positional matcher for `(\d+)[.)-]\s+\*\*([^*]+)\*\*`: a numbered,
bold-marked item.  Returns the number, the item text, and the remainder
after the match. -/
def matchNumberedBold (cs : List Char) : Option (String × String × List Char) :=
  let (ds, r1) := takeDigits cs
  if ds.isEmpty then none
  else
    match r1 with
    | c :: r2 =>
      if c = '.' || c = ')' || c = '-' then
        let (ws, r3) := takeWS r2
        if ws.isEmpty then none
        else
          match r3 with
          | '*' :: '*' :: r4 =>
            let (content, r5) := takeNonStar r4
            if content.isEmpty then none
            else
              match r5 with
              | '*' :: '*' :: r6 => some (String.mk ds, String.mk content, r6)
              | _ => none
          | _ => none
      else none
    | [] => none

/-- Positional matcher for `-\s+\*\*([^*]+)\*\*`: a bulleted bold item. -/
def matchBulletBold (cs : List Char) : Option (String × List Char) :=
  match cs with
  | '-' :: r1 =>
    let (ws, r2) := takeWS r1
    if ws.isEmpty then none
    else
      match r2 with
      | '*' :: '*' :: r3 =>
        let (content, r4) := takeNonStar r3
        if content.isEmpty then none
        else
          match r4 with
          | '*' :: '*' :: r5 => some (String.mk content, r5)
          | _ => none
      | _ => none
  | _ => none

/-- Positional matcher for `\*\*([^*]+)\*\*`: a bold item. -/
def matchBold (cs : List Char) : Option (String × List Char) :=
  match cs with
  | '*' :: '*' :: r1 =>
    let (content, r2) := takeNonStar r1
    if content.isEmpty then none
    else
      match r2 with
      | '*' :: '*' :: r3 => some (String.mk content, r3)
      | _ => none
  | _ => none

/-- Generic `re.findall` driver: scan left to right, collect
non-overlapping matches, resume after each match end.  `fuel` bounds the
scan by the input length (every step consumes at least one character). -/
def findAllAux {α : Type} (m : List Char → Option (α × List Char)) :
    List Char → Nat → List α
  | _, 0 => []
  | cs, fuel + 1 =>
    match m cs with
    | some (v, rest) => v :: findAllAux m rest fuel
    | none =>
      match cs with
      | [] => []
      | _ :: cs' => findAllAux m cs' fuel

/-- Line 863: `re.findall` of the numbered-bold pattern over a message. -/
def findNumberedBoldItems (s : String) : List (String × String) :=
  findAllAux (fun cs => (matchNumberedBold cs).map (fun p => ((p.1, p.2.1), p.2.2)))
    s.toList s.toList.length

/-- Line 867: `re.findall` of the bulleted-bold pattern over a message. -/
def findBulletBoldItems (s : String) : List String :=
  findAllAux matchBulletBold s.toList s.toList.length

/-- Line 903: `re.findall` of the bold pattern over a line. -/
def findBoldItems (s : String) : List String :=
  findAllAux matchBold s.toList s.toList.length

/-- Line 883: `re.search(r'(\d+)', query)` followed by `int(...)` — the first
maximal digit run of the raw query, as a number. -/
def firstNumberIn (s : String) : Option Nat :=
  match (searchAt (fun cs =>
    let (ds, _) := takeDigits cs
    if ds.isEmpty then none else some (String.mk ds)) s.toList) with
  | some ds => some (digitsToNat ds.data)
  | none => none

/-- Python list indexing with negative-index support (`items[i]`): the guard
at line 889 only checks the upper bound, so a bare `0` in a query yields
index `-1`, which Python reads from the end.  Indices below `-len` would
raise in Python; they are unreachable here (a bare number `n` gives index
`n - 1 ≥ -1`) and map to `none`. -/
def pyListGet {α : Type} (l : List α) (i : Int) : Option α :=
  if 0 ≤ i then l.get? i.toNat
  else if -i ≤ (l.length : Int) then l.get? (l.length - (-i).toNat)
  else none

/-- Lines 826-890: resolution of `referenced_item`.  When the query carries
reference language, the most recent assistant message is searched for
numbered bold items (bulleted ones renumbered as a fallback, lines 866-870);
the ordinal vocabulary of lines 873-887 picks the index; the item is taken
when the index is below the list length and stripped. -/
def resolveReferencedItem (query history_context : String) : Option String :=
  if isReferenceRequest query then
    let msgs := assistantMessages history_context
    match msgs.getLast? with
    | none => none
    | some lastMsg =>
      let numbered := findNumberedBoldItems lastMsg
      let numbered :=
        if numbered.isEmpty then
          (findBulletBoldItems lastMsg).enum.map (fun p => (toString (p.1 + 1), p.2))
        else numbered
      let q := pyLower query
      let idx : Option Int :=
        if strContains q "first" || strContains q "1st" then some 0
        else if strContains q "second" || strContains q "2nd" then some 1
        else if strContains q "third" || strContains q "3rd" then some 2
        else if strContains q "fourth" || strContains q "4th" then some 3
        else
          match firstNumberIn query with
          | some n => some ((n : Int) - 1)
          | none => none
      match idx with
      | none => none
      | some i =>
        if !numbered.isEmpty && i < (numbered.length : Int) then
          (pyListGet numbered i).map (fun p => pyStrip p.2)
        else none
  else none

/-- Lines 892-910: named-entity matching, run only when the query is NOT a
reference request: collect the bold items of every assistant line, and take
the first whose lowercased text occurs in the lowercased query. -/
def namedEntityOf (query history_context : String) (is_ref : Bool) : Option String :=
  if is_ref then none
  else if history_context ≠ "" then
    let mentions := (pySplitLines history_context).foldl
      (fun acc line =>
        if pyStartsWith line "Assistant:" || pyStartsWith line "A:" then
          acc ++ findBoldItems line
        else acc) []
    mentions.find? (fun r => strContains (pyLower query) (pyLower r))
  else none

/-- Python `f"{b}"` on a bool. -/
def pyBool (b : Bool) : String := if b then "True" else "False"

/-- The conditional header lines shared by all three prompt templates
(`DATES MENTIONED` / `TIME REQUESTED` / `PARTY SIZE`, e.g. lines
919-921). -/
def headerDates : Option String → String
  | some d => "DATES MENTIONED: " ++ d
  | none => ""

/-- Header line for the requested time (see `headerDates`). -/
def headerTime : Option String → String
  | some t => "TIME REQUESTED: " ++ t
  | none => ""

/-- Header line for the party size (see `headerDates`). -/
def headerParty : Option String → String
  | some p => "PARTY SIZE: " ++ p ++ " people"
  | none => ""

/-- Lines 929-936: the synthesized STEP 1 sentence of the search prompt. -/
def basedOnLine (referenced_item named_entity party_size time dates : Option String) :
    String :=
  "Based on the user's query and conversation history, they are asking about:"
    ++ (match referenced_item with | some v => " " ++ v | none => "")
    ++ (match named_entity with | some v => " " ++ v | none => "")
    ++ (match party_size with | some v => " for " ++ v ++ " people" | none => "")
    ++ (match time with | some v => " at " ++ v | none => "")
    ++ (match dates with | some v => " on " ++ v | none => "")

/-- Lines 913-977: the `search` prompt template, interpolations made
explicit. -/
def searchPromptText (query history_context : String)
    (dates time party_size : Option String) (is_reference_request : Bool)
    (referenced_item named_entity : Option String) : String :=
  "\n            !!! IMPORTANT - READ CAREFULLY !!!\n\n            "
    ++ history_context
    ++ "\n            \n            CURRENT REQUEST: \"" ++ query ++ "\""
    ++ "\n            " ++ headerDates dates
    ++ "\n            " ++ headerTime time
    ++ "\n            " ++ headerParty party_size
    ++ "\n            \n            THIS IS A REFERENCE REQUEST: " ++ pyBool is_reference_request
    ++ "\n            \n            REFERENCED ITEM: " ++ referenced_item.getD ""
    ++ "\n            EXPLICITLY MENTIONED PLACE: " ++ named_entity.getD ""
    ++ "\n\n            STEP 1: UNDERSTAND WHAT THE USER IS ASKING FOR\n            "
    ++ basedOnLine referenced_item named_entity party_size time dates
    ++ "\n            \n            TIME LIMIT: 90 seconds total\n            \n            SEARCH STEPS:\n            1. [15s] VERIFY WHAT THE USER IS LOOKING FOR:\n               - If they mentioned a specific restaurant by name (like Yardbird or Amber), search for that\n               - If they said \"the second one\" or similar, find that item in the previous list\n               - Remember they're asking about availability for "
    ++ party_size.getD "their party"
    ++ " at "
    ++ time.getD "the specified time"
    ++ "\n            \n            2. [20s] Go to the official website of this SPECIFIC place:\n               - For restaurants: Search for \"[restaurant name] hong kong official website\"\n               - Use the restaurant's official site first before third-party booking sites\n            \n            3. [30s] Check real-time availability for these specific details:\n               - Date: "
    ++ dates.getD "this weekend"
    ++ "\n               - Time: "
    ++ time.getD "9pm"
    ++ " as mentioned\n               - Party size: "
    ++ party_size.getD "3"
    ++ " people\n               - Look for reservation system, booking form, or contact information\n               - MOST IMPORTANTLY: Find and copy the EXACT BOOKING URL for this restaurant\n            \n            4. [25s] Gather all relevant details:\n               - Whether there is availability for the exact requested time/date/party size\n               - If the exact time is not available, what alternatives are offered\n               - If they don't take reservations, explain their policy clearly\n               - Booking conditions and contact information\n               - Price range if available (average cost per person)\n               - The DIRECT BOOKING LINK that a user could click to make a reservation\n            \n            FORMAT RESULTS:\n            - Start with a clear statement about the specific restaurant and its availability\n            - Be explicit about which restaurant you checked\n            - Include price range if available\n            - Always include the DIRECT BOOKING LINK if available\n            - End with an offer to book on behalf of the user\n            \n            IMPORTANT: \n            - Make absolutely certain you are checking the CORRECT restaurant from the conversation.\n            - The booking link is CRITICAL - users need to be able to book directly.\n            - If you find a booking platform (OpenTable, Resy, etc.), provide the EXACT link to that specific restaurant.\n            "

/-- Lines 979-1017: the `booking` prompt template. -/
def bookingPromptText (query history_context : String)
    (dates time party_size referenced_item named_entity : Option String) : String :=
  "\n            CONVERSATION CONTEXT:\n            "
    ++ history_context
    ++ "\n            \n            CURRENT REQUEST: \"" ++ query ++ "\""
    ++ "\n            " ++ headerDates dates
    ++ "\n            " ++ headerTime time
    ++ "\n            " ++ headerParty party_size
    ++ "\n            \n            REFERENCED ITEM: " ++ referenced_item.getD ""
    ++ "\n            EXPLICITLY MENTIONED PLACE: " ++ named_entity.getD ""
    ++ "\n            \n            Using the conversation context above, proceed with booking exactly what the user is asking for in their most recent request.\n            Be sure to focus on the specific restaurant and booking details mentioned in the conversation history.\n            \n            TIME LIMIT: 90 seconds\n            \n            STEPS:\n            1. [20s] Identify the exact place to book based on the conversation\n               - If they mentioned a specific restaurant by name, book that one\n               - If they referred to \"the second one\" or similar, find that item in the previous list\n            \n            2. [30s] Access the official booking system for the specific place\n               - Use the party size: "
    ++ party_size.getD "Not specified"
    ++ "\n               - For the date: "
    ++ dates.getD "Not specified"
    ++ "\n               - At time: "
    ++ time.getD "Not specified"
    ++ "\n            \n            3. [40s] Enter all required customer details\n               - Use the following placeholders for personal information:\n               - Name: user_name\n               - Email: user_email\n               - Phone: user_phone\n            \n            FORMAT RESULTS:\n            - Booking confirmation details\n            - Important information about the booking\n            - Next steps required to complete the booking\n            - Contact information\n            "

/-- Lines 1020-1044: the fallback prompt template for unrecognized task
types. -/
def defaultPromptText (query history_context : String)
    (dates time party_size referenced_item named_entity : Option String) : String :=
  "\n            CONVERSATION CONTEXT:\n            "
    ++ history_context
    ++ "\n            \n            CURRENT REQUEST: \"" ++ query ++ "\""
    ++ "\n            " ++ headerDates dates
    ++ "\n            " ++ headerTime time
    ++ "\n            " ++ headerParty party_size
    ++ "\n            \n            REFERENCED ITEM: " ++ referenced_item.getD ""
    ++ "\n            EXPLICITLY MENTIONED PLACE: " ++ named_entity.getD ""
    ++ "\n            \n            Using the conversation context above, focus on finding information about exactly what the user is asking about in their most recent request.\n            Pay special attention if they're referring to something specific from earlier in the conversation.\n            \n            TIME LIMIT: 90 seconds total\n            \n            SEARCH STEPS:\n            1. [20s] Identify the specific place the user is referring to\n            2. [20s] Go directly to official website/platform for that specific place\n            3. [30s] Check real-time information and availability for the specified party size and time\n            4. [20s] Gather important details and booking information\n            \n            FORMAT RESULTS CLEARLY WITH ALL FOUND INFORMATION.\n            "

/-- Translation of `generate_task_prompt` (lines 696-1044): extract dates,
time, party size, reference and named entity, then fill the template chosen
by `task_type`.  `dayOffsetStr` and `weekday` carry the call-time calendar
environment (see `extractDates`). -/
def generate_task_prompt (query task_type history_context : String)
    (dayOffsetStr : Nat → String) (weekday : Int) : String :=
  let dates := extractDates query dayOffsetStr weekday
  let tp := extractTimeAndParty query history_context
  let time := tp.1
  let party_size := tp.2
  let is_reference_request := isReferenceRequest query
  let referenced_item := resolveReferencedItem query history_context
  let named_entity := namedEntityOf query history_context is_reference_request
  if task_type = "search" then
    searchPromptText query history_context dates time party_size
      is_reference_request referenced_item named_entity
  else if task_type = "booking" then
    bookingPromptText query history_context dates time party_size
      referenced_item named_entity
  else
    defaultPromptText query history_context dates time party_size
      referenced_item named_entity

/-- Message strings a caller can receive that carry no exception text: the
breaker messages, the classified-error messages and the retry-exhaustion
fallback (all defined above from the source). -/
def safeMessages : List String :=
  [generalBlockedMessage, anthropicBlockedMessage, anthropicOpenedMessage,
    generalOpenedMessage, browserIssueMessage, overloadRetryMessage,
    connectionRetryMessage, maxRetriesMessage]

/-- Shape of every string `execute_search` can return: a fixed user-safe
message, the extracted result of a successful attempt, or the
raw-exception-embedding message of the unclassified-error path. -/
def searchResultShape (env : Nat → AttemptOutcome) (res : String) : Prop :=
  res ∈ safeMessages ∨
  (∃ k r, env k = .success r ∧ res = extract_final_result r) ∨
  (∃ k e, (env k = .agentError e ∨ env k = .outerError e) ∧
    res = "I encountered an error: " ++ e)

/-- A three-item enumerated assistant reply, as `_extract_user_details`
formats history (lines 679-686), used to instantiate the Context Resolver
claims. -/
def demoHistory : String :=
  "User: find me some restaurants\nAssistant: Here are three options:\n1. **Alpha**\n2. **Bravo**\n3. **Charlie**"

/-- A history whose assistant turn contains no enumerated list. -/
def demoHistoryNoList : String :=
  "User: hi\nAssistant: hello there"

end BrowserService

namespace BrowserService

/-! ## Helper lemmas about the dictionary model -/

theorem alistGet_alistSet_self {α : Type} (l : List (Nat × α)) (k : Nat) (v : α) :
    alistGet (alistSet l k v) k = some v := by
  induction l with
  | nil => simp [alistSet, alistGet]
  | cons hd tl ih =>
    obtain ⟨k', v'⟩ := hd
    by_cases h : k' = k
    · subst h
      simp [alistSet, alistGet]
    · simp [alistSet, alistGet, h, ih]

theorem alistGet_alistSet_ne {α : Type} (l : List (Nat × α)) (k k' : Nat) (v : α)
    (h : k ≠ k') :
    alistGet (alistSet l k v) k' = alistGet l k' := by
  induction l with
  | nil => simp [alistSet, alistGet, h]
  | cons hd tl ih =>
    obtain ⟨k0, v0⟩ := hd
    by_cases h0 : k0 = k
    · subst h0
      simp [alistSet, alistGet, h]
    · simp [alistSet, alistGet, h0, ih]

theorem alistGet_alistRemove_self {α : Type} (l : List (Nat × α)) (k : Nat) :
    alistGet (alistRemove l k) k = none := by
  induction l with
  | nil => simp [alistRemove, alistGet]
  | cons hd tl ih =>
    obtain ⟨k0, v0⟩ := hd
    by_cases h0 : k0 = k
    · subst h0
      simp [alistRemove, alistGet, ih]
    · simp [alistRemove, alistGet, h0, ih]

/-! ## C6 — Result Extractor -/

/-- C6: the Result Extractor returns a string outcome unchanged; on an
outcome exposing step results it returns the extracted content of the last
step marked done with non-empty content, and failing that the extracted
content of the last step with any non-empty content; in particular an
outcome whose only done step carries content "X" yields "X" even when
earlier (and later) non-done steps carry content. -/
theorem extract_final_result_spec :
    (∀ s : String, extract_final_result (.str s) = s) ∧
    (∀ (rs : List StepResult) (strRepr : String) (r : StepResult),
      (rs.filter (fun a => a.is_done && a.extracted_content ≠ "")).getLast? = some r →
      extract_final_result (.withResults rs strRepr) = r.extracted_content) ∧
    (∀ (rs : List StepResult) (strRepr : String) (r : StepResult),
      (rs.filter (fun a => a.is_done && a.extracted_content ≠ "")).getLast? = none →
      (rs.filter (fun a => a.extracted_content ≠ "")).getLast? = some r →
      extract_final_result (.withResults rs strRepr) = r.extracted_content) ∧
    (extract_final_result (.withResults
      [⟨false, "earlier content", none, none⟩, ⟨true, "X", none, none⟩,
        ⟨false, "later content", none, none⟩] "fallback repr") = "X") := by
  refine ⟨fun s => rfl, ?_, ?_, by decide⟩
  · intro rs strRepr r h
    simp only [extract_final_result]
    rw [h]
  · intro rs strRepr r h1 h2
    simp only [extract_final_result]
    rw [h1, h2]

/-- Witness for C6: the with-hypothesis parts applied at concrete step
lists. -/
theorem extract_final_result_spec_witness :
    extract_final_result (.withResults [⟨true, "X", none, none⟩] "f") = "X" ∧
    extract_final_result (.withResults [⟨false, "Y", none, none⟩] "f") = "Y" :=
  ⟨extract_final_result_spec.2.1 [⟨true, "X", none, none⟩] "f"
      ⟨true, "X", none, none⟩ (by decide),
    extract_final_result_spec.2.2.1 [⟨false, "Y", none, none⟩] "f"
      ⟨false, "Y", none, none⟩ (by decide) (by decide)⟩

/-! ## C10 — extend_timeout -/

/-- C10: `extend_timeout` stamps the user's activity entry with the current
time (creating it when absent), returns `True`, changes nothing else in the
session state, and is entirely independent of `additional_seconds`. -/
theorem extend_timeout_spec :
    ∀ (s : SessionState) (u : Nat) (a a' now : Int),
      (extend_timeout s u a now).2 = true ∧
      alistGet (extend_timeout s u a now).1.last_activity_times u = some now ∧
      (∀ v, u ≠ v → alistGet (extend_timeout s u a now).1.last_activity_times v
        = alistGet s.last_activity_times v) ∧
      (extend_timeout s u a now).1.browsers = s.browsers ∧
      (extend_timeout s u a now).1.current_contexts = s.current_contexts ∧
      (extend_timeout s u a now).1.inactivity_timeout = s.inactivity_timeout ∧
      (extend_timeout s u a now).1.inactivity_check_running = s.inactivity_check_running ∧
      (extend_timeout s u a now).1.next_handle = s.next_handle ∧
      extend_timeout s u a now = extend_timeout s u a' now := by
  intro s u a a' now
  refine ⟨rfl, alistGet_alistSet_self _ _ _, ?_, rfl, rfl, rfl, rfl, rfl, rfl⟩
  intro v hv
  exact alistGet_alistSet_ne _ _ _ _ hv

/-- Witness for C10: the frame part applied at a concrete state and a
different user. -/
theorem extend_timeout_spec_witness :
    alistGet (extend_timeout ⟨[], [(2, 5)], [], 1800, false, 0⟩ 1 600 42).1.last_activity_times 2
      = alistGet (⟨[], [(2, 5)], [], 1800, false, 0⟩ : SessionState).last_activity_times 2 :=
  (extend_timeout_spec ⟨[], [(2, 5)], [], 1800, false, 0⟩ 1 600 600 42).2.2.1 2 (by decide)

/-! ## C9 — cleanup -/

/-- Counterexample to C9: a user can hold an activity-bookkeeping entry with
no live browser handle (here created by `extend_timeout` on a fresh state);
`cleanup` then takes its no-browser branch (line 500) and leaves the
activity entry in place, contradicting the claim that after `cleanup`
returns the user holds no activity-bookkeeping entry. -/
theorem cleanup_leaves_activity_entry :
    alistGet (cleanup (extend_timeout ⟨[], [], [], 1800, false, 0⟩ 1 1800 42).1 1).last_activity_times 1
      = some 42 := by decide

theorem cleanup_noop (s : SessionState) (u : Nat) (h : hasLiveBrowser s u = false) :
    cleanup s u = s := by
  simp [cleanup, h]

theorem hasLiveBrowser_cleanup (s : SessionState) (u : Nat) :
    hasLiveBrowser (cleanup s u) u = false := by
  by_cases h : hasLiveBrowser s u
  · simp only [cleanup, h, if_true]
    simp [hasLiveBrowser, alistGet_alistSet_self]
  · have h' : hasLiveBrowser s u = false := by simpa using h
    rw [cleanup_noop s u h', h']

/-- C9 (amended): `cleanup` never raises (it is total), is idempotent, and
always leaves the user with no live handle; when the user held a live handle
its activity and context entries are removed, but when there is no live
handle the call changes nothing — in particular a pre-existing activity
entry without a handle survives. -/
theorem cleanup_spec :
    ∀ (s : SessionState) (u : Nat),
      cleanup (cleanup s u) u = cleanup s u ∧
      hasLiveBrowser (cleanup s u) u = false ∧
      (hasLiveBrowser s u = true →
        alistGet (cleanup s u).last_activity_times u = none ∧
        alistGet (cleanup s u).current_contexts u = none) ∧
      (hasLiveBrowser s u = false → cleanup s u = s) := by
  intro s u
  refine ⟨cleanup_noop _ u (hasLiveBrowser_cleanup s u), hasLiveBrowser_cleanup s u,
    ?_, cleanup_noop s u⟩
  intro htrue
  simp only [cleanup, htrue, if_true]
  exact ⟨alistGet_alistRemove_self _ _, alistGet_alistRemove_self _ _⟩

/-- Witness for C9: the entry-removal part applied at a state with a live
handle, and the no-op part at a handleless state. -/
theorem cleanup_spec_witness :
    alistGet (cleanup ⟨[(1, some 7)], [(1, 3)], [(1, 9)], 1800, true, 8⟩ 1).last_activity_times 1
        = none ∧
    cleanup ⟨[], [(1, 3)], [], 1800, false, 0⟩ 1 = ⟨[], [(1, 3)], [], 1800, false, 0⟩ :=
  ⟨((cleanup_spec ⟨[(1, some 7)], [(1, 3)], [(1, 9)], 1800, true, 8⟩ 1).2.2.1 (by decide)).1,
    (cleanup_spec ⟨[], [(1, 3)], [], 1800, false, 0⟩ 1).2.2.2 (by decide)⟩

/-! ## C4 — browser acquisition -/

/-- Counterexample to C4: with a live handle `7` already stored for user 1,
the acquisition step of `execute_search` (lines 292-294) returns the very
same state and handle — the pre-existing handle is reused, not closed and
recreated, contradicting the claim that every task runs on a newly created
handle. -/
theorem acquireBrowser_reuses_existing :
    acquireBrowser ⟨[(1, some 7)], [(1, 0)], [], 1800, true, 8⟩ 1 99
      = (⟨[(1, some 7)], [(1, 0)], [], 1800, true, 8⟩, 7) := by decide

/-- C4 (amended): `execute_search` initializes a browser only when the user
has no live handle — a pre-existing live handle is reused unchanged (as the
repository's `test_browser_reuse.py` exercises); `initialize_browser`
itself, when it does run, returns the freshly constructed handle (distinct
from every stored one whenever the freshness counter dominates them) and
stores it for the user. -/
theorem browser_acquisition_spec :
    ∀ (s : SessionState) (u : Nat) (now : Int),
      (∀ h, alistGet s.browsers u = some (some h) → acquireBrowser s u now = (s, h)) ∧
      (hasLiveBrowser s u = false →
        acquireBrowser s u now = initialize_browser s u now) ∧
      ((initialize_browser s u now).2 = s.next_handle) ∧
      (alistGet (initialize_browser s u now).1.browsers u = some (some s.next_handle)) ∧
      (∀ u' h', alistGet s.browsers u' = some (some h') → h' < s.next_handle →
        h' ≠ (initialize_browser s u now).2) := by
  intro s u now
  have hnh : (initialize_browser s u now).2 = s.next_handle := by
    simp only [initialize_browser]
    by_cases h : hasLiveBrowser s u <;> simp [h]
  refine ⟨?_, ?_, hnh, ?_, ?_⟩
  · intro h hget
    simp [acquireBrowser, hget]
  · intro hfalse
    simp only [acquireBrowser]
    simp only [hasLiveBrowser] at hfalse
    rcases hget : alistGet s.browsers u with _ | b
    · rfl
    · rcases b with _ | h
      · rfl
      · rw [hget] at hfalse
        simp at hfalse
  · simp only [initialize_browser]
    by_cases h : hasLiveBrowser s u <;> simp [h, alistGet_alistSet_self]
  · intro u' h' _ hlt
    rw [hnh]
    exact Nat.ne_of_lt hlt

/-- Witness for C4: reuse at a stored handle, initialization at a handleless
state, and freshness under a dominating counter. -/
theorem browser_acquisition_spec_witness :
    acquireBrowser ⟨[(1, some 7)], [], [], 1800, true, 8⟩ 1 5
        = (⟨[(1, some 7)], [], [], 1800, true, 8⟩, 7) ∧
    acquireBrowser ⟨[], [], [], 1800, false, 0⟩ 1 5
        = initialize_browser ⟨[], [], [], 1800, false, 0⟩ 1 5 ∧
    (7 : Nat) ≠ (initialize_browser ⟨[(1, some 7)], [], [], 1800, true, 8⟩ 2 5).2 :=
  ⟨(browser_acquisition_spec ⟨[(1, some 7)], [], [], 1800, true, 8⟩ 1 5).1 7 (by decide),
    (browser_acquisition_spec ⟨[], [], [], 1800, false, 0⟩ 1 5).2.1 (by decide),
    (browser_acquisition_spec ⟨[(1, some 7)], [], [], 1800, true, 8⟩ 2 5).2.2.2.2
      1 7 (by decide) (by decide)⟩

/-! ## C5 — retry backoff -/

/-- C5: for every attempt number that the loop can reach (`1 ≤ n ≤
MAX_RETRIES`) and every jitter draw, the delay equals `2^n` plus jitter of
±25% of `2^n` (the `max 1` clamp is inactive there), its expectation `2^n`
is non-decreasing in the attempt number, and the delay never exceeds 120
seconds. -/
theorem retryDelay_spec :
    (∀ (n : Nat) (r : ℚ), 1 ≤ n → 0 ≤ r → r ≤ 1 →
      retryDelay n r = 2 ^ n + 2 ^ n * (1 / 4) * (2 * r - 1)) ∧
    (∀ n : Nat, 1 ≤ n → expectedRetryDelay n = 2 ^ n) ∧
    (∀ m n : Nat, 1 ≤ m → m ≤ n → expectedRetryDelay m ≤ expectedRetryDelay n) ∧
    (∀ (n : Nat) (r : ℚ), n ≤ MAX_RETRIES → 0 ≤ r → r ≤ 1 → retryDelay n r ≤ 120) := by
  have hformula : ∀ (n : Nat) (r : ℚ), 1 ≤ n → 0 ≤ r → r ≤ 1 →
      retryDelay n r = 2 ^ n + 2 ^ n * (1 / 4) * (2 * r - 1) := by
    intro n r hn hr0 hr1
    have h2 : (2 : ℚ) ≤ 2 ^ n := by
      calc (2 : ℚ) = 2 ^ 1 := (pow_one 2).symm
      _ ≤ 2 ^ n := pow_le_pow_right (by norm_num) hn
    simp only [retryDelay]
    exact max_eq_right (by nlinarith)
  have hexp : ∀ n : Nat, 1 ≤ n → expectedRetryDelay n = 2 ^ n := by
    intro n hn
    simp only [expectedRetryDelay]
    rw [hformula n 0 hn (by norm_num) (by norm_num),
      hformula n 1 hn (by norm_num) (by norm_num)]
    ring
  refine ⟨hformula, hexp, ?_, ?_⟩
  · intro m n hm hmn
    rw [hexp m hm, hexp n (le_trans hm hmn)]
    exact pow_le_pow_right (by norm_num) hmn
  · intro n r hn hr0 hr1
    have hn3 : n ≤ 3 := hn
    have h8 : (2 : ℚ) ^ n ≤ 8 := by
      calc (2 : ℚ) ^ n ≤ 2 ^ 3 := pow_le_pow_right (by norm_num) hn3
      _ = 8 := by norm_num
    simp only [retryDelay]
    exact max_le (by norm_num) (by nlinarith)

/-- Witness for C5: the parts applied at attempts 1-3 and concrete draws. -/
theorem retryDelay_spec_witness :
    retryDelay 2 (1 / 2) = 2 ^ 2 + 2 ^ 2 * (1 / 4) * (2 * (1 / 2) - 1) ∧
    expectedRetryDelay 2 = 2 ^ 2 ∧
    expectedRetryDelay 1 ≤ expectedRetryDelay 3 ∧
    retryDelay 3 1 ≤ 120 :=
  ⟨retryDelay_spec.1 2 (1 / 2) (by norm_num) (by norm_num) (by norm_num),
    retryDelay_spec.2.1 2 (by norm_num),
    retryDelay_spec.2.2.1 1 3 (by norm_num) (by norm_num),
    retryDelay_spec.2.2.2 3 1 (by decide) (by norm_num) (by norm_num)⟩

/-! ## C3 — failure counting -/

theorem generalThresholdCheck_counts (s : CBState) (now : Int) (res : String) :
    (generalThresholdCheck s now res).1.circuit_failure_count = s.circuit_failure_count ∧
    (generalThresholdCheck s now res).1.anthropic_failures = s.anthropic_failures := by
  simp only [generalThresholdCheck]
  split <;> simp

/-- Counterexample to C3: a connection-classified error ("connection reset by
peer" matches the `connection` marker, not an overload marker) increments the
general breaker's `_circuit_failure_count` from 0 to 1 (line 406),
contradicting the claim that only overload-classified errors increment any
breaker's count. -/
theorem connection_error_increments_general_count :
    (handleAgentError initialCBState 0 "connection reset by peer").1.circuit_failure_count = 1 ∧
    isOverloadError (pyLower "connection reset by peer") = false := by decide

/-- C3 (amended): the provider breaker's count increments only on
overload-classified errors; the GENERAL breaker's count increments both on
overload errors (when the provider breaker does not trip at that instant)
and on timeout/connection-classified errors; installation errors and
unclassified errors increment neither; any success resets both counts
to 0. -/
theorem failure_count_updates :
    ∀ (s : CBState) (now : Int) (e : String),
      (isPlaywrightError (pyLower e) = true →
        (handleAgentError s now e).1.circuit_failure_count = s.circuit_failure_count ∧
        (handleAgentError s now e).1.anthropic_failures = s.anthropic_failures) ∧
      (isPlaywrightError (pyLower e) = false → isOverloadError (pyLower e) = true →
        s.anthropic_failures + 1 < anthropic_failure_threshold →
        (handleAgentError s now e).1.anthropic_failures = s.anthropic_failures + 1 ∧
        (handleAgentError s now e).1.circuit_failure_count = s.circuit_failure_count + 1) ∧
      (isPlaywrightError (pyLower e) = false → isOverloadError (pyLower e) = true →
        anthropic_failure_threshold ≤ s.anthropic_failures + 1 →
        (handleAgentError s now e).1.anthropic_failures = s.anthropic_failures + 1 ∧
        (handleAgentError s now e).1.circuit_failure_count = s.circuit_failure_count) ∧
      (isPlaywrightError (pyLower e) = false → isOverloadError (pyLower e) = false →
        isConnectionError (pyLower e) = true →
        (handleAgentError s now e).1.circuit_failure_count = s.circuit_failure_count + 1 ∧
        (handleAgentError s now e).1.anthropic_failures = s.anthropic_failures) ∧
      (isPlaywrightError (pyLower e) = false → isOverloadError (pyLower e) = false →
        isConnectionError (pyLower e) = false →
        (handleAgentError s now e).1.circuit_failure_count = s.circuit_failure_count ∧
        (handleAgentError s now e).1.anthropic_failures = s.anthropic_failures) ∧
      ((recordSuccess s).anthropic_failures = 0 ∧
        (recordSuccess s).circuit_failure_count = 0) := by
  intro s now e
  refine ⟨?_, ?_, ?_, ?_, ?_, by simp [recordSuccess]⟩
  · intro hpw
    simp only [handleAgentError, hpw, if_true]
    exact ⟨(generalThresholdCheck_counts _ _ _).1, (generalThresholdCheck_counts _ _ _).2⟩
  · intro hpw hov hlt
    have hnot : ¬ (anthropic_failure_threshold ≤ s.anthropic_failures + 1) := by omega
    simp only [handleAgentError, hpw, hov, Bool.false_eq_true, if_false, if_true]
    simp only [hnot, if_false]
    constructor
    · rw [(generalThresholdCheck_counts _ _ _).2]
    · rw [(generalThresholdCheck_counts _ _ _).1]
  · intro hpw hov hth
    simp only [handleAgentError, hpw, hov, Bool.false_eq_true, if_false, if_true]
    simp only [hth, if_true]
    exact ⟨trivial, trivial⟩
  · intro hpw hov hconn
    simp only [handleAgentError, hpw, hov, hconn, Bool.false_eq_true, if_false, if_true]
    constructor
    · rw [(generalThresholdCheck_counts _ _ _).1]
    · rw [(generalThresholdCheck_counts _ _ _).2]
  · intro hpw hov hconn
    simp only [handleAgentError, hpw, hov, hconn, Bool.false_eq_true, if_false]
    exact ⟨(generalThresholdCheck_counts _ _ _).1, (generalThresholdCheck_counts _ _ _).2⟩

/-- Witness for C3: the overload, connection, unclassified and success parts
applied at concrete states and error texts. -/
theorem failure_count_updates_witness :
    (handleAgentError initialCBState 0 "Error code: 502").1.anthropic_failures = 1 ∧
    (handleAgentError initialCBState 0 "read timeout").1.circuit_failure_count = 1 ∧
    (handleAgentError initialCBState 0 "division by zero").1.circuit_failure_count = 0 ∧
    (recordSuccess initialCBState).anthropic_failures = 0 :=
  ⟨((failure_count_updates initialCBState 0 "Error code: 502").2.1
      (by decide) (by decide) (by decide)).1,
    ((failure_count_updates initialCBState 0 "read timeout").2.2.2.1
      (by decide) (by decide) (by decide)).1,
    ((failure_count_updates initialCBState 0 "division by zero").2.2.2.2.1
      (by decide) (by decide) (by decide)).1,
    (failure_count_updates initialCBState 0 "x").2.2.2.2.2.1⟩

/-! ## C2 — circuit breaker lifecycle -/

/-- C2: each breaker opens (open time stamped) the moment its failure count
reaches its threshold; while `now - openedAt < cooldown` every
`execute_search` call fails fast with the blocked high-demand message
without consulting the dispatch environment; and the first call at or past
the cooldown resets the breaker to closed with failure count 0 and lets the
dispatch proceed (the check returns no blocking message). -/
theorem circuit_breaker_lifecycle :
    (∀ (s : CBState) (now : Int) (e : String),
      isPlaywrightError (pyLower e) = false → isOverloadError (pyLower e) = false →
      isConnectionError (pyLower e) = true →
      circuit_reset_threshold ≤ s.circuit_failure_count + 1 →
      (handleAgentError s now e).1.circuit_open = true ∧
      (handleAgentError s now e).1.circuit_open_time = some now ∧
      (handleAgentError s now e).2 = .immediate generalOpenedMessage) ∧
    (∀ (s : CBState) (now : Int) (e : String),
      isPlaywrightError (pyLower e) = false → isOverloadError (pyLower e) = true →
      s.anthropic_failures + 1 < anthropic_failure_threshold →
      circuit_reset_threshold ≤ s.circuit_failure_count + 1 →
      (handleAgentError s now e).1.circuit_open = true ∧
      (handleAgentError s now e).1.circuit_open_time = some now ∧
      (handleAgentError s now e).2 = .immediate generalOpenedMessage) ∧
    (∀ (env : Nat → AttemptOutcome) (s : CBState) (now t : Int) (maxR : Nat),
      s.circuit_open = true → s.circuit_open_time = some t →
      now - t < circuit_cooldown_period →
      execute_search env s now maxR = (s, generalBlockedMessage)) ∧
    (∀ (s : CBState) (now t : Int),
      s.circuit_open = true → s.circuit_open_time = some t →
      circuit_cooldown_period ≤ now - t → s.anthropic_circuit_open = false →
      checkCircuitBreakers s now
        = (none, { s with circuit_open := false, circuit_failure_count := 0 })) ∧
    (∀ (s : CBState) (now : Int) (e : String),
      isPlaywrightError (pyLower e) = false → isOverloadError (pyLower e) = true →
      anthropic_failure_threshold ≤ s.anthropic_failures + 1 →
      (handleAgentError s now e).1.anthropic_circuit_open = true ∧
      (handleAgentError s now e).1.anthropic_circuit_open_time = some now ∧
      (handleAgentError s now e).2 = .immediate anthropicOpenedMessage) ∧
    (∀ (env : Nat → AttemptOutcome) (s : CBState) (now t : Int) (maxR : Nat),
      s.circuit_open = false → s.anthropic_circuit_open = true →
      s.anthropic_circuit_open_time = some t →
      now - t < anthropic_circuit_reset_after →
      execute_search env s now maxR = (s, anthropicBlockedMessage)) ∧
    (∀ (s : CBState) (now t : Int),
      s.circuit_open = false → s.anthropic_circuit_open = true →
      s.anthropic_circuit_open_time = some t →
      anthropic_circuit_reset_after ≤ now - t →
      checkCircuitBreakers s now
        = (none, { s with anthropic_circuit_open := false, anthropic_failures := 0 })) := by
  refine ⟨?_, ?_, ?_, ?_, ?_, ?_, ?_⟩
  · intro s now e hpw hov hconn hth
    simp only [handleAgentError, generalThresholdCheck, hpw, hov, hconn,
      Bool.false_eq_true, if_false, if_true]
    simp only [hth, if_true]
    exact ⟨trivial, trivial, trivial⟩
  · intro s now e hpw hov hlt hth
    have hnot : ¬ (anthropic_failure_threshold ≤ s.anthropic_failures + 1) := by omega
    simp only [handleAgentError, generalThresholdCheck, hpw, hov,
      Bool.false_eq_true, if_false, if_true]
    simp only [hnot, if_false, hth, if_true]
    exact ⟨trivial, trivial, trivial⟩
  · intro env s now t maxR hopen htime hlt
    simp [execute_search, checkCircuitBreakers, hopen, htime, hlt]
  · intro s now t hopen htime hge hanth
    have hnlt : ¬ (now - t < circuit_cooldown_period) := not_lt.mpr hge
    simp [checkCircuitBreakers, checkAnthropicCircuit, hopen, htime, hnlt, hanth]
  · intro s now e hpw hov hth
    simp only [handleAgentError, hpw, hov, Bool.false_eq_true, if_false, if_true]
    simp only [hth, if_true]
    exact ⟨trivial, trivial, trivial⟩
  · intro env s now t maxR hgen hopen htime hlt
    simp [execute_search, checkCircuitBreakers, checkAnthropicCircuit, hgen, hopen,
      htime, hlt]
  · intro s now t hgen hopen htime hge
    have hnlt : ¬ (now - t < anthropic_circuit_reset_after) := not_lt.mpr hge
    simp [checkCircuitBreakers, checkAnthropicCircuit, hgen, hopen, htime, hnlt]

/-- Witness for C2: opening at the third failure, fail-fast inside the
cooldown, and reset at the cooldown boundary, for both breakers. -/
theorem circuit_breaker_lifecycle_witness :
    ((handleAgentError ⟨0, false, none, false, none, 2⟩ 7 "connection reset").1.circuit_open
        = true ∧
      (handleAgentError ⟨0, false, none, false, none, 2⟩ 7 "connection reset").1.circuit_open_time
        = some 7 ∧
      (handleAgentError ⟨0, false, none, false, none, 2⟩ 7 "connection reset").2
        = .immediate generalOpenedMessage) ∧
    execute_search (fun _ => .success (.str "ok")) ⟨0, false, none, true, some 0, 3⟩ 299 3
      = (⟨0, false, none, true, some 0, 3⟩, generalBlockedMessage) ∧
    checkCircuitBreakers ⟨0, false, none, true, some 0, 3⟩ 300
      = (none, { (⟨0, false, none, true, some 0, 3⟩ : CBState) with
          circuit_open := false, circuit_failure_count := 0 }) ∧
    ((handleAgentError ⟨2, false, none, false, none, 0⟩ 7 "overloaded").1.anthropic_circuit_open
        = true ∧
      (handleAgentError ⟨2, false, none, false, none, 0⟩ 7 "overloaded").1.anthropic_circuit_open_time
        = some 7 ∧
      (handleAgentError ⟨2, false, none, false, none, 0⟩ 7 "overloaded").2
        = .immediate anthropicOpenedMessage) ∧
    execute_search (fun _ => .success (.str "ok")) ⟨0, true, some 0, false, none, 0⟩ 299 3
      = (⟨0, true, some 0, false, none, 0⟩, anthropicBlockedMessage) ∧
    checkCircuitBreakers ⟨0, true, some 0, false, none, 0⟩ 300
      = (none, { (⟨0, true, some 0, false, none, 0⟩ : CBState) with
          anthropic_circuit_open := false, anthropic_failures := 0 }) :=
  ⟨circuit_breaker_lifecycle.1 ⟨0, false, none, false, none, 2⟩ 7 "connection reset"
      (by decide) (by decide) (by decide) (by decide),
    circuit_breaker_lifecycle.2.2.1 (fun _ => .success (.str "ok"))
      ⟨0, false, none, true, some 0, 3⟩ 299 0 3 (by decide) (by decide) (by decide),
    circuit_breaker_lifecycle.2.2.2.1 ⟨0, false, none, true, some 0, 3⟩ 300 0
      (by decide) (by decide) (by decide) (by decide),
    circuit_breaker_lifecycle.2.2.2.2.1 ⟨2, false, none, false, none, 0⟩ 7 "overloaded"
      (by decide) (by decide) (by decide),
    circuit_breaker_lifecycle.2.2.2.2.2.1 (fun _ => .success (.str "ok"))
      ⟨0, true, some 0, false, none, 0⟩ 299 0 3 (by decide) (by decide) (by decide)
      (by decide),
    circuit_breaker_lifecycle.2.2.2.2.2.2 ⟨0, true, some 0, false, none, 0⟩ 300 0
      (by decide) (by decide) (by decide) (by decide)⟩

/-! ## C1 — the text returned to the caller -/

theorem handleAgentError_immediate (s : CBState) (now : Int) (e m : String)
    (h : (handleAgentError s now e).2 = .immediate m) : m ∈ safeMessages := by
  simp only [handleAgentError, generalThresholdCheck] at h
  repeat' split at h
  all_goals simp_all [safeMessages]

theorem handleAgentError_retry (s : CBState) (now : Int) (e res : String)
    (h : (handleAgentError s now e).2 = .retry res) :
    res ∈ safeMessages ∨ res = "I encountered an error: " ++ e := by
  simp only [handleAgentError, generalThresholdCheck] at h
  repeat' split at h
  all_goals simp_all [safeMessages]

theorem checkCircuitBreakers_blocked (s s2 : CBState) (now : Int) (m : String)
    (h : checkCircuitBreakers s now = (some m, s2)) : m ∈ safeMessages := by
  simp only [checkCircuitBreakers, checkAnthropicCircuit] at h
  repeat' split at h
  all_goals simp_all [safeMessages]

theorem searchLoop_shape (env : Nat → AttemptOutcome) (now : Int) (maxR : Nat) :
    ∀ (fuel : Nat) (s : CBState) (res : String) (retries : Nat),
      retries ≤ maxR → retries + fuel = maxR + 1 →
      (res = "" ∨ searchResultShape env res) →
      searchResultShape env (searchLoop env now maxR s res retries fuel).2 := by
  intro fuel
  induction fuel with
  | zero =>
    intro s res retries hle hsum _
    omega
  | succ fuel ih =>
    intro s res retries hle hsum hres
    rcases henv : env retries with r | e | e
    · simp only [searchLoop, henv]
      exact Or.inr (Or.inl ⟨retries, r, henv, rfl⟩)
    · rcases hh : handleAgentError s now e with ⟨s', step⟩
      rcases step with m | res2
      · simp only [searchLoop, henv, hh]
        exact Or.inl (handleAgentError_immediate s now e m (by rw [hh]))
      · have hres2 : searchResultShape env res2 := by
          rcases handleAgentError_retry s now e res2 (by rw [hh]) with hsafe | hraw
          · exact Or.inl hsafe
          · exact Or.inr (Or.inr ⟨retries, e, Or.inl henv, hraw⟩)
        simp only [searchLoop, henv, hh]
        by_cases hmax : maxR < retries + 1
        · simp only [hmax, if_true]
          by_cases hempty : res2 = ""
          · simp only [hempty, if_pos rfl]
            exact Or.inl (by simp [safeMessages])
          · simp only [if_neg hempty]
            exact hres2
        · simp only [hmax, if_false]
          exact ih s' res2 (retries + 1) (by omega) (by omega) (Or.inr hres2)
    · have hres2 : searchResultShape env ("I encountered an error: " ++ e) :=
        Or.inr (Or.inr ⟨retries, e, Or.inr henv, rfl⟩)
      simp only [searchLoop, henv]
      by_cases hmax : maxR < retries + 1
      · simp only [hmax, if_true]
        by_cases hempty : ("I encountered an error: " ++ e) = ""
        · simp only [hempty, if_pos rfl]
          exact Or.inl (by simp [safeMessages])
        · simp only [if_neg hempty]
          exact hres2
      · simp only [hmax, if_false]
        exact ih s ("I encountered an error: " ++ e) (retries + 1) (by omega) (by omega)
          (Or.inr hres2)

/-- Counterexample to C1: with every attempt raising an unclassified
exception whose text is "division by zero", `execute_search` returns
"I encountered an error: division by zero" — the raw exception text crosses
the Session Manager boundary, contradicting the claim that no raw exception
text appears in the returned string. -/
theorem raw_error_text_returned :
    (execute_search (fun _ => .agentError "division by zero") initialCBState 0 MAX_RETRIES).2
        = "I encountered an error: division by zero" ∧
    strContains
      (execute_search (fun _ => .agentError "division by zero") initialCBState 0 MAX_RETRIES).2
      "division by zero" = true := by decide

/-- C1 (amended): `execute_search` returns a plain text string on every code
path and never raises; every returned string is a fixed user-safe message or
the extracted result of a successful attempt — except that the
unclassified-error path returns "I encountered an error: " followed by the
raw exception text, so raw exception text does reach the caller on that
path. -/
theorem execute_search_returns_text :
    ∀ (env : Nat → AttemptOutcome) (s : CBState) (now : Int) (maxR : Nat),
      searchResultShape env (execute_search env s now maxR).2 := by
  intro env s now maxR
  rcases hc : checkCircuitBreakers s now with ⟨om, s'⟩
  rcases om with _ | m
  · simp only [execute_search, hc]
    exact searchLoop_shape env now maxR (maxR + 1) s' "" 0 (Nat.zero_le _) (by omega)
      (Or.inl rfl)
  · simp only [execute_search, hc]
    exact Or.inl (checkCircuitBreakers_blocked s s' now m hc)

/-! ## C7 — ordinal reference resolution -/

/-- Counterexample to C7: against a history whose last assistant turn
enumerates the bold items Alpha, Bravo, Charlie, the query "book the last
one" is recognized as reference language but resolves NO item: the ordinal
chain of lines 873-887 has no case for "last" and the bare-number fallback
finds no digit, so `referenced_item` stays unset instead of resolving to the
last item as the claim states. -/
theorem last_one_reference_unresolved :
    resolveReferencedItem "book the last one" demoHistory = none ∧
    isReferenceRequest "book the last one" = true := by decide

/-- C7 (amended): with a last assistant turn enumerating [Alpha, Bravo,
Charlie], "the second one" resolves the second item, a reference query with
no prior enumerated list resolves nothing, and "the last one" — though
recognized as reference language — also resolves nothing: negative/"last"
indexing is not supported by the ordinal vocabulary. -/
theorem reference_resolution_spec :
    resolveReferencedItem "book the second one" demoHistory = some "Bravo" ∧
    resolveReferencedItem "book the last one" demoHistory = none ∧
    resolveReferencedItem "book the second one" demoHistoryNoList = none := by decide

/-! ## C8 — unresolved slots and prompt defaults -/

set_option maxRecDepth 100000

theorem extractDates_same_query_none :
    ∀ (d : Nat → String) (w : Int),
      extractDates "same time, same party" d w = none := by
  intro d w
  have h1 : strContains (pyLower "same time, same party") "next weekend" = false := by decide
  have h2 : strContains (pyLower "same time, same party") "this weekend" = false := by decide
  have h3 : strContains (pyLower "same time, same party") "saturday" = false := by decide
  have h4 : strContains (pyLower "same time, same party") "sunday" = false := by decide
  have h5 : strContains (pyLower "same time, same party") "this friday" = false := by decide
  have h6 : strContains (pyLower "same time, same party") "tomorrow" = false := by decide
  simp [extractDates, h1, h2, h3, h4, h5, h6]

/-- Counterexample to C8: for the query "same time, same party" with empty
history both slots stay unset, yet the SEARCH prompt (the template of lines
913-976, cited by the claim at lines 950-953) nowhere states "not
specified"; it substitutes the fabricated defaults "this weekend", "9pm" and
"3" into its availability-check step instead. -/
theorem search_prompt_fabricates_defaults :
    extractTimeAndParty "same time, same party" "" = (none, none) ∧
    strContains (generate_task_prompt "same time, same party" "search" "" (fun _ => "") 0)
      "not specified" = false ∧
    strContains (generate_task_prompt "same time, same party" "search" "" (fun _ => "") 0)
      "Not specified" = false ∧
    strContains (generate_task_prompt "same time, same party" "search" "" (fun _ => "") 0)
      "- Time: 9pm as mentioned" = true := by decide

/-- C8 (amended): for a "same time, same party" query whose history holds
neither time nor party size, the date/time/party-size slots all remain
unset; the BOOKING prompt then explicitly states "Not specified" for each of
the three slots, but the SEARCH prompt instead substitutes the defaults
"this weekend", "9pm" and "3 people". -/
theorem prompt_unset_slots_spec :
    ∀ (d : Nat → String) (w : Int),
      extractTimeAndParty "same time, same party" "" = (none, none) ∧
      extractDates "same time, same party" d w = none ∧
      strContains (generate_task_prompt "same time, same party" "booking" "" d w)
        "- Use the party size: Not specified" = true ∧
      strContains (generate_task_prompt "same time, same party" "booking" "" d w)
        "- For the date: Not specified" = true ∧
      strContains (generate_task_prompt "same time, same party" "booking" "" d w)
        "- At time: Not specified" = true ∧
      strContains (generate_task_prompt "same time, same party" "search" "" d w)
        "- Date: this weekend" = true ∧
      strContains (generate_task_prompt "same time, same party" "search" "" d w)
        "- Time: 9pm as mentioned" = true ∧
      strContains (generate_task_prompt "same time, same party" "search" "" d w)
        "- Party size: 3 people" = true := by
  intro d w
  have hd := extractDates_same_query_none d w
  refine ⟨by decide, hd, ?_, ?_, ?_, ?_, ?_, ?_⟩ <;>
    · simp only [generate_task_prompt]
      rw [hd]
      decide

end BrowserService
